import Mathlib

/-!
Shallow embedding of `curtin/reporter/events.py` (the curtin reporting
framework): the event model, the status set, the dispatch functions and the
`ReportEventStack` scope guard, together with proofs of the specification
claims about them.

Modelling conventions:
  * Python strings are `String`; Python `None` for an optional value is
    `Option.none`; a Python optional parameter whose presence matters is an
    `Option` argument (`none` = the caller omitted it).
  * `time.time()` readings are `Nat`.  The default argument
    `timestamp=time.time()` of `ReportingEvent.__init__` is evaluated once,
    when the module is imported; that single reading is the `importTime`
    parameter threaded through the constructors.
  * Python dicts keyed by strings are association lists updated by
    `dictUpsert`, which (like a Python dict) replaces the value in place when
    the key is present and appends otherwise; iteration order is list order
    (Python dict insertion order).
  * A constructor or method that can raise returns `Except String`.
  * The module-global handler registry `instantiated_handler_registry` is
    passed explicitly as a list of handlers in registration order; a
    handler's externally-defined `publish_event` either returns or raises,
    and each call made to it is recorded.
-/

set_option autoImplicit false

namespace CurtinReporter

def FINISH_EVENT_TYPE : String := "finish"

def START_EVENT_TYPE : String := "start"

def RESULT_EVENT_TYPE : String := "result"

def DEFAULT_EVENT_ORIGIN : String := "curtin"

/-- The `_nameset` instance `status = _nameset(("SUCCESS", "WARN", "FAIL"))`;
membership in this set is the validity check used throughout the module. -/
def status : List String := ["SUCCESS", "WARN", "FAIL"]

/-- Python-dict update `d[k] = v`: replace in place when `k` is present,
append otherwise. -/
def dictUpsert {α : Type} (k : String) (v : α) : List (String × α) → List (String × α)
  | [] => [(k, v)]
  | (k', v') :: rest => if k' = k then (k, v) :: rest else (k', v') :: dictUpsert k v rest

/-- `ReportingEvent`: encapsulation of event formatting. -/
structure ReportingEvent where
  event_type : String
  name : String
  description : String
  origin : String
  timestamp : Nat
deriving DecidableEq, Repr

/-- `ReportingEvent.__init__`.  `timestamp? = none` means the caller omitted
the `timestamp` argument; the default `time.time()` was evaluated once at
module import, so an omitted argument yields `importTime`, not the
construction-time clock. -/
def ReportingEvent.init (importTime : Nat) (event_type name description : String)
    (origin : String := DEFAULT_EVENT_ORIGIN) (timestamp? : Option Nat := none) :
    ReportingEvent :=
  { event_type, name, description, origin,
    timestamp := timestamp?.getD importTime }

/-- `ReportingEvent.as_string`. -/
def ReportingEvent.as_string (e : ReportingEvent) : String :=
  e.event_type ++ ": " ++ e.name ++ ": " ++ e.description

/-- The dictionary produced by `ReportingEvent.as_dict`. -/
structure EventDict where
  name : String
  description : String
  event_type : String
  origin : String
  timestamp : Nat
deriving DecidableEq, Repr

/-- `ReportingEvent.as_dict`. -/
def ReportingEvent.as_dict (e : ReportingEvent) : EventDict :=
  { name := e.name, description := e.description, event_type := e.event_type,
    origin := e.origin, timestamp := e.timestamp }

/-- The base64 alphabet used by `base64.b64encode`. -/
def b64char (n : Nat) : Char :=
  ("ABCDEFGHIJKLMNOPQRSTUVWXYZabcdefghijklmnopqrstuvwxyz0123456789+/").toList.getD n
    (Char.ofNat 65)

/-- `base64.b64encode(bytes).decode()` over a byte list. -/
def b64encode : List Nat → String
  | [] => ""
  | [a] =>
    let a := a % 256
    String.mk [b64char (a / 4), b64char (a % 4 * 16), Char.ofNat 61, Char.ofNat 61]
  | [a, b] =>
    let a := a % 256
    let b := b % 256
    String.mk [b64char (a / 4), b64char (a % 4 * 16 + b / 16), b64char (b % 16 * 4),
      Char.ofNat 61]
  | a :: b :: c :: rest =>
    let a' := a % 256
    let b' := b % 256
    let c' := c % 256
    String.mk [b64char (a' / 4), b64char (a' % 4 * 16 + b' / 16),
      b64char (b' % 16 * 4 + c' / 64), b64char (c' % 64)] ++ b64encode rest

/-- One entry of the serialized `files` list. -/
structure FileInfo where
  path : String
  content : Option String
  encoding : String
deriving DecidableEq, Repr

/-- `_collect_file_info(files)`.  The filesystem is the function `fs`: for a
path that is currently a regular file it gives the file's bytes, otherwise
`none` (`os.path.isfile` false). -/
def collect_file_info (fs : String → Option (List Nat)) (files : List String) :
    Option (List FileInfo) :=
  if files = [] then none
  else some (files.map fun fname =>
    { path := fname,
      content := match fs fname with
        | none => none
        | some bytes => some (b64encode bytes),
      encoding := "base64" })

/-- `FinishReportingEvent`: a `ReportingEvent` with `event_type = finish`,
a result and attached post files. -/
structure FinishReportingEvent extends ReportingEvent where
  result : String
  post_files : List String
deriving DecidableEq, Repr

/-- `FinishReportingEvent.__init__`: fields are set and then `result` is
validated against `status`; an invalid result raises `ValueError`, so the
caller never obtains the object. -/
def FinishReportingEvent.init (importTime : Nat) (name description : String)
    (result : String := "SUCCESS") (post_files : Option (List String) := none) :
    Except String FinishReportingEvent :=
  let base := ReportingEvent.init importTime FINISH_EVENT_TYPE name description
  let pf := post_files.getD []
  if result ∈ status then
    .ok { toReportingEvent := base, result, post_files := pf }
  else
    .error ("Invalid result: " ++ result)

/-- `FinishReportingEvent.as_string`. -/
def FinishReportingEvent.as_string (e : FinishReportingEvent) : String :=
  e.event_type ++ ": " ++ e.name ++ ": " ++ e.result ++ ": " ++ e.description

/-- The dictionary produced by `FinishReportingEvent.as_dict`: the base keys,
`result`, and a `files` key present (`some`) exactly when the
`if self.post_files:` guard fires. -/
structure FinishEventDict extends EventDict where
  result : String
  files : Option (List FileInfo)
deriving DecidableEq, Repr

/-- `FinishReportingEvent.as_dict`: file contents are read from `fs` at
serialization time, not at construction time. -/
def FinishReportingEvent.as_dict (fs : String → Option (List Nat))
    (e : FinishReportingEvent) : FinishEventDict :=
  { toEventDict := e.toReportingEvent.as_dict,
    result := e.result,
    files := if e.post_files = [] then none else collect_file_info fs e.post_files }

/-- A registered handler of the module registry: its identity and whether its
externally-defined `publish_event` raises (and with what error). -/
structure Handler where
  hid : Nat
  failsWith : Option String
deriving DecidableEq, Repr

/-- `report_event(event)`: deliver the event to every registered handler in
registration order.  Returns the list of calls actually made, each recorded as
`(handler id, event)`, and the error the first failing handler raised, if
any; handlers after a failing one are never reached. -/
def report_event {ε : Type} (registry : List Handler) (ev : ε) :
    List (Nat × ε) × Option String :=
  match registry with
  | [] => ([], none)
  | h :: rest =>
    match h.failsWith with
    | some err => ([(h.hid, ev)], some err)
    | none =>
      let r := report_event rest ev
      ((h.hid, ev) :: r.1, r.2)

/-- Outcome of `report_finish_event`: either the `ValueError` raised while
constructing the event (before any handler call), or the dispatch record. -/
inductive FinishDispatchOutcome
  | valError (msg : String)
  | dispatched (calls : List (Nat × FinishReportingEvent)) (handlerErr : Option String)
deriving DecidableEq

/-- `report_finish_event(event_name, event_description, result, post_files)`:
construct a `FinishReportingEvent` and dispatch it with `report_event`. -/
def report_finish_event (importTime : Nat) (registry : List Handler)
    (event_name event_description : String) (result : String := "SUCCESS")
    (post_files : Option (List String) := none) : FinishDispatchOutcome :=
  match FinishReportingEvent.init importTime event_name event_description result post_files with
  | .error m => .valError m
  | .ok ev =>
    let r := report_event registry ev
    .dispatched r.1 r.2

/-- `report_start_event(event_name, event_description)`. -/
def report_start_event (importTime : Nat) (registry : List Handler)
    (event_name event_description : String) :
    List (Nat × ReportingEvent) × Option String :=
  report_event registry
    (ReportingEvent.init importTime START_EVENT_TYPE event_name event_description)

/-- A Python exception object reaching `ReportEventStack.__exit__`:
either a `SystemExit` carrying an exit code or any other exception. -/
inductive PyExc
  | systemExit (code : Int)
  | otherExc (name : String)
deriving DecidableEq, Repr

/-- The `isinstance(exc, SystemExit) and exc.code == 0` test of
`ReportEventStack._finish_info`. -/
def isCleanExit : PyExc → Bool
  | .systemExit code => code == 0
  | .otherExc _ => false

/-- `ReportEventStack` state.  `_message` and `_result` are the attributes
behind the `message` and `result` properties; `children` maps a child name to
its latest recorded `(result, message)` pair, where `(none, none)` is the
placeholder a child writes on entry.  The `parent` reference is not stored:
Lean is pure, so every operation that reads or writes `self.parent` takes the
parent's current state as an `Option ReportEventStack` argument and returns
the updated parent. -/
structure ReportEventStack where
  name : String
  description : String
  _message : Option String
  result_on_exception : String
  _result : String
  post_files : List String
  reporting_enabled : Bool
  fullname : String
  children : List (String × (Option String × Option String))
deriving DecidableEq, Repr

/-- The `result` property getter. -/
def ReportEventStack.result (s : ReportEventStack) : String :=
  s._result

/-- The `result` property setter: raises `ValueError` unless the value is in
`status`. -/
def ReportEventStack.result_set (s : ReportEventStack) (value : String) :
    Except String ReportEventStack :=
  if value ∈ status then .ok { s with _result := value }
  else .error (value ++ " not a valid result")

/-- The `message` property getter: the explicitly set message if it is not
`None`, else the current `description`. -/
def ReportEventStack.message (s : ReportEventStack) : String :=
  match s._message with
  | some m => m
  | none => s.description

/-- The `message` property setter. -/
def ReportEventStack.message_set (s : ReportEventStack) (value : Option String) :
    ReportEventStack :=
  { s with _message := value }

/-- `ReportEventStack.__init__`.  `reporting_enabled? = none` means the
argument was omitted (inherit from the parent, or `True` at the root).  The
only validated assignment is `self.result = status.SUCCESS`, which goes
through the `result` setter; `result_on_exception` is stored without any
check. -/
def ReportEventStack.init (name description : String)
    (message : Option String := none)
    (parent : Option ReportEventStack := none)
    (reporting_enabled? : Option Bool := none)
    (result_on_exception : String := "FAIL")
    (post_files : Option (List String) := none) :
    Except String ReportEventStack :=
  let reporting_enabled :=
    match reporting_enabled?, parent with
    | some b, _ => b
    | none, some p => p.reporting_enabled
    | none, none => true
  let fullname :=
    match parent with
    | some p => p.fullname ++ "/" ++ name
    | none => name
  let s : ReportEventStack :=
    { name, description, _message := message, result_on_exception,
      _result := "SUCCESS", post_files := post_files.getD [],
      reporting_enabled, fullname, children := [] }
  s.result_set "SUCCESS"

/-- The inner scan of `_childrens_finish_info`: does any entry of `children`
record the candidate result?  The `(none, none)` placeholder matches no
candidate. -/
def findChildWith (cand : String) :
    List (String × (Option String × Option String)) → Bool
  | [] => false
  | (_, (value, _)) :: rest =>
    if value = some cand then true else findChildWith cand rest

/-- `ReportEventStack._childrens_finish_info`: scan for a `FAIL` child, then
for a `WARN` child, else fall back to `(self.result, self.message)`. -/
def ReportEventStack.childrens_finish_info (s : ReportEventStack) :
    String × String :=
  if findChildWith "FAIL" s.children then ("FAIL", s.message)
  else if findChildWith "WARN" s.children then ("WARN", s.message)
  else (s.result, s.message)

/-- `ReportEventStack._finish_info(exc)`: a propagating exception that is not
a clean `SystemExit(0)` yields `(result_on_exception, message)`; otherwise
the children rollup decides. -/
def ReportEventStack.finish_info (s : ReportEventStack) (exc : Option PyExc) :
    String × String :=
  match exc with
  | some e => if isCleanExit e then s.childrens_finish_info
              else (s.result_on_exception, s.message)
  | none => s.childrens_finish_info

/-- `ReportEventStack.__enter__`: reset `result` to `SUCCESS` (through the
`result` setter, with the always-valid value `SUCCESS`), emit a start event
when reporting is enabled, and write the `(None, None)` placeholder into the
parent's `children`.  Returns the updated self, the updated parent, and the
events passed to `report_event`. -/
def ReportEventStack.enter (importTime : Nat) (s : ReportEventStack)
    (parent : Option ReportEventStack) :
    ReportEventStack × Option ReportEventStack × List ReportingEvent :=
  let s1 := { s with _result := "SUCCESS" }
  let evs :=
    if s1.reporting_enabled then
      [ReportingEvent.init importTime START_EVENT_TYPE s1.fullname s1.description]
    else []
  let parent1 := parent.map fun p =>
    { p with children := dictUpsert s1.name (none, none) p.children }
  (s1, parent1, evs)

/-- `ReportEventStack.__exit__`: compute `(result, msg)` with `_finish_info`,
write it into the parent's `children`, then (when reporting is enabled) build
and dispatch the finish event — whose constructor may raise on an invalid
result.  Returns the updated self, the updated parent, and the finish events
passed to `report_event`. -/
def ReportEventStack.exit (importTime : Nat) (s : ReportEventStack)
    (parent : Option ReportEventStack) (exc : Option PyExc) :
    Except String (ReportEventStack × Option ReportEventStack × List FinishReportingEvent) :=
  let rm := s.finish_info exc
  let parent1 := parent.map fun p =>
    { p with children := dictUpsert s.name (some rm.1, some rm.2) p.children }
  if s.reporting_enabled then
    match FinishReportingEvent.init importTime s.fullname rm.2 rm.1 (some s.post_files) with
    | .error m => .error m
    | .ok ev => .ok (s, parent1, [ev])
  else
    .ok (s, parent1, [])

/-- The observable outcome of running a `with` block guarded by a
`ReportEventStack`. -/
structure WithResult where
  self : ReportEventStack
  parent : Option ReportEventStack
  startEvents : List ReportingEvent
  finishEvents : List FinishReportingEvent
  propagating : Option PyExc
deriving DecidableEq, Repr

/-- The `with` statement around a `ReportEventStack`: enter, run the body
(`bodyMut` is the body's net mutation of the stack object, `bodyExc` the
exception it raises, if any), then exit.  `__exit__` has no return statement,
so it returns `None`, which is falsy: the body's exception is never
suppressed and keeps propagating after the finish event is emitted. -/
def runWith (importTime : Nat) (s : ReportEventStack)
    (parent : Option ReportEventStack)
    (bodyMut : ReportEventStack → ReportEventStack) (bodyExc : Option PyExc) :
    Except String WithResult :=
  let ep := s.enter importTime parent
  let s2 := bodyMut ep.1
  match s2.exit importTime ep.2.1 bodyExc with
  | .error m => .error m
  | .ok r =>
    .ok { self := r.1, parent := r.2.1, startEvents := ep.2.2,
          finishEvents := r.2.2, propagating := bodyExc }

/-- A concrete stack as produced by `ReportEventStack.init "stage" "desc"`,
used to instantiate theorems with hypotheses. -/
def sampleStack : ReportEventStack :=
  { name := "stage", description := "desc", _message := none,
    result_on_exception := "FAIL", _result := "SUCCESS", post_files := [],
    reporting_enabled := true, fullname := "stage", children := [] }

/-- A stack whose `children` mapping already records a `FAIL` outcome from a
previous use of the same instance. -/
def failChildStack : ReportEventStack :=
  { sampleStack with
    name := "holder"
    fullname := "holder"
    children := [("c", (some "FAIL", some "x"))] }

/-- A reporting-disabled child of `sampleStack`. -/
def disabledChild : ReportEventStack :=
  { sampleStack with
    name := "child"
    fullname := "stage/child"
    reporting_enabled := false }

theorem findChildWith_eq_any (cand : String)
    (l : List (String × (Option String × Option String))) :
    findChildWith cand l = l.any fun c => c.2.1 = some cand := by
  induction l with
  | nil => rfl
  | cons hd tl ih =>
    obtain ⟨n, v, m⟩ := hd
    by_cases h : v = some cand <;> simp [findChildWith, h, ih]

theorem findChildWith_dictUpsert (cand k : String) (m : Option String)
    (l : List (String × (Option String × Option String))) :
    findChildWith cand (dictUpsert k (some cand, m) l) = true := by
  induction l with
  | nil => simp [dictUpsert, findChildWith]
  | cons hd tl ih =>
    obtain ⟨n, v, mm⟩ := hd
    by_cases hk : n = k
    · simp [dictUpsert, hk, findChildWith]
    · by_cases hv : v = some cand <;> simp [dictUpsert, hk, findChildWith, hv, ih]

theorem childrens_finish_info_mem_status (s : ReportEventStack)
    (h : s._result ∈ status) : s.childrens_finish_info.1 ∈ status := by
  unfold ReportEventStack.childrens_finish_info
  by_cases h1 : findChildWith "FAIL" s.children = true
  · simp [h1, status]
  · by_cases h2 : findChildWith "WARN" s.children = true
    · simp [h1, h2, status]
    · simpa [h1, h2, ReportEventStack.result] using h

theorem report_event_all_ok {ε : Type} (ev : ε) (registry : List Handler)
    (hok : ∀ h ∈ registry, h.failsWith = none) :
    report_event registry ev = (registry.map (fun h => (h.hid, ev)), none) := by
  induction registry with
  | nil => rfl
  | cons hd tl ih =>
    have hhd : hd.failsWith = none := hok hd (by simp)
    have htl : ∀ h ∈ tl, h.failsWith = none := fun h hm => hok h (by simp [hm])
    simp [report_event, hhd, ih htl]

theorem report_event_first_failure {ε : Type} (ev : ε) (pre : List Handler)
    (f : Handler) (post : List Handler) (err : String)
    (hok : ∀ h ∈ pre, h.failsWith = none) (hf : f.failsWith = some err) :
    report_event (pre ++ f :: post) ev
      = (pre.map (fun h => (h.hid, ev)) ++ [(f.hid, ev)], some err) := by
  induction pre with
  | nil => simp [report_event, hf]
  | cons hd tl ih =>
    have hhd : hd.failsWith = none := hok hd (by simp)
    have htl : ∀ h ∈ tl, h.failsWith = none := fun h hm => hok h (by simp [hm])
    simp [report_event, hhd, ih htl]

/-- Claim C1: when a `ReportEventStack` exits normally (no exception from the
body), a recorded `FAIL` child forces the outcome `(FAIL, self.message)`; with
no `FAIL` child, a recorded `WARN` child forces `(WARN, self.message)` — so
`FAIL` dominates `WARN` regardless of recording order; otherwise, including
when every child entry is the `(None, None)` placeholder, the outcome is
`(self.result, self.message)`. -/
theorem rollup_fail_dominates_warn (s : ReportEventStack) :
    s.finish_info none =
      (if s.children.any (fun c => c.2.1 = some "FAIL") then ("FAIL", s.message)
       else if s.children.any (fun c => c.2.1 = some "WARN") then ("WARN", s.message)
       else (s.result, s.message)) := by
  simp only [ReportEventStack.finish_info, ReportEventStack.childrens_finish_info,
    findChildWith_eq_any]

/-- Claim C3 (documenting the code bug): the default `timestamp=time.time()`
of `ReportingEvent.__init__` is evaluated once, at module import, so an event
constructed without an explicit timestamp carries the import-time reading —
and two such events constructed at different wall-clock times carry the same
timestamp, not their own construction times. -/
theorem default_timestamp_is_import_time :
    (ReportingEvent.init 3 START_EVENT_TYPE "a" "da").timestamp = 3 ∧
    (ReportingEvent.init 3 START_EVENT_TYPE "b" "db").timestamp =
      (ReportingEvent.init 3 START_EVENT_TYPE "a" "da").timestamp :=
  ⟨rfl, rfl⟩

/-- Claim C4, counterexample: `"BOGUS"` is not a valid status, yet
`ReportEventStack.__init__` succeeds with it as `result_on_exception` — no
validation happens at construction time, contrary to the claim. -/
theorem stack_init_accepts_invalid_result_on_exception :
    "BOGUS" ∉ status ∧
    ReportEventStack.init "n" "d" none none none "BOGUS" none =
      .ok { name := "n", description := "d", _message := none,
            result_on_exception := "BOGUS", _result := "SUCCESS",
            post_files := [], reporting_enabled := true, fullname := "n",
            children := [] } := by
  exact ⟨by decide, rfl⟩

/-- Claim C4, amended: constructing a `ReportEventStack` with an invalid
`result_on_exception` succeeds; the invalid value is rejected only when the
scope exits after a body exception with reporting enabled, while the finish
event is being constructed — hence before that event is dispatched. -/
theorem invalid_result_on_exception_rejected_at_exit
    (r : String) (hr : r ∉ status) (n d : String) (e : PyExc)
    (he : isCleanExit e = false) (s : ReportEventStack)
    (hs : s.result_on_exception = r) (hen : s.reporting_enabled = true)
    (p : Option ReportEventStack) (imp : Nat) :
    (∃ s0, ReportEventStack.init n d none none none r none = .ok s0 ∧
       s0.result_on_exception = r) ∧
    s.exit imp p (some e) = .error ("Invalid result: " ++ r) := by
  constructor
  · exact ⟨_, rfl, rfl⟩
  · simp [ReportEventStack.exit, ReportEventStack.finish_info, he, hs, hen,
      FinishReportingEvent.init, hr]

theorem invalid_result_on_exception_rejected_at_exit_witness :
    (∃ s0, ReportEventStack.init "n" "d" none none none "BOGUS" none = .ok s0 ∧
       s0.result_on_exception = "BOGUS") ∧
    ReportEventStack.exit 0
      { sampleStack with result_on_exception := "BOGUS" } none
      (some (PyExc.otherExc "ValueError")) =
      .error ("Invalid result: " ++ "BOGUS") :=
  invalid_result_on_exception_rejected_at_exit "BOGUS" (by decide) "n" "d"
    (PyExc.otherExc "ValueError") rfl
    { sampleStack with result_on_exception := "BOGUS" } rfl rfl none 0

/-- Claim C7: the serialized finish event has a `files` key exactly when
`post_files` is non-empty; each entry is `(path, content, encoding "base64")`
with `content = none` when the path is not currently a regular file and the
base64 encoding of the file's bytes otherwise; in particular a file holding
the bytes of `"hi"` serializes to content `"aGk="`. -/
theorem as_dict_files_key (fs : String → Option (List Nat))
    (e : FinishReportingEvent) :
    (e.as_dict fs).files =
      (if e.post_files = [] then none
       else some (e.post_files.map fun q =>
         { path := q, content := (fs q).map b64encode, encoding := "base64" })) ∧
    (FinishReportingEvent.as_dict (fun q => if q = "f" then some [104, 105] else none)
       { toReportingEvent := ReportingEvent.init 0 FINISH_EVENT_TYPE "n" "d",
         result := "SUCCESS", post_files := ["f"] }).files =
      some [{ path := "f", content := some "aGk=", encoding := "base64" }] := by
  constructor
  · by_cases h : e.post_files = []
    · simp [FinishReportingEvent.as_dict, collect_file_info, h]
    · simp [FinishReportingEvent.as_dict, collect_file_info, h]
      intro a _
      cases hfa : fs a <;> simp [hfa]
  · rfl

/-- Claim C8: the `message` property falls back, live, to the current
`description` while `_message` has never been set to a value; once a value is
assigned, the property returns it and ignores later `description` changes. -/
theorem message_live_default (s : ReportEventStack) (d v : String)
    (h : s._message = none) :
    s.message = s.description ∧
    ({ s with description := d } : ReportEventStack).message = d ∧
    (s.message_set (some v)).message = v ∧
    ({ s.message_set (some v) with description := d }).message = v := by
  simp [ReportEventStack.message, ReportEventStack.message_set, h]

theorem message_live_default_witness :
    sampleStack.message = sampleStack.description ∧
    ({ sampleStack with description := "d2" } : ReportEventStack).message = "d2" ∧
    (sampleStack.message_set (some "m")).message = "m" ∧
    ({ sampleStack.message_set (some "m") with description := "d2" }).message = "m" :=
  message_live_default sampleStack "d2" "m" rfl

theorem childrens_finish_info_snd (s : ReportEventStack) :
    s.childrens_finish_info.2 = s.message := by
  unfold ReportEventStack.childrens_finish_info
  by_cases h1 : findChildWith "FAIL" s.children = true
  · simp [h1]
  · by_cases h2 : findChildWith "WARN" s.children = true <;> simp [h1, h2]

theorem exit_exc (imp : Nat) (s : ReportEventStack) (p : Option ReportEventStack)
    (e : PyExc) (he : isCleanExit e = false)
    (hroe : s.result_on_exception ∈ status) :
    s.exit imp p (some e) = .ok
      (s,
       p.map (fun q => { q with children := (dictUpsert s.name
           (some s.result_on_exception, some s.message) q.children) }),
       if s.reporting_enabled then
         [{ toReportingEvent :=
              ReportingEvent.init imp FINISH_EVENT_TYPE s.fullname s.message,
            result := s.result_on_exception, post_files := s.post_files }]
       else []) := by
  by_cases hen : s.reporting_enabled <;>
    simp [ReportEventStack.exit, ReportEventStack.finish_info, he,
      FinishReportingEvent.init, hroe, hen]

theorem exit_clean_eq_exit_none (imp : Nat) (s : ReportEventStack)
    (p : Option ReportEventStack) (e : PyExc) (he : isCleanExit e = true) :
    s.exit imp p (some e) = s.exit imp p none := by
  simp [ReportEventStack.exit, ReportEventStack.finish_info, he]

theorem exit_rollup (imp : Nat) (s : ReportEventStack) (p : Option ReportEventStack)
    (hres : s._result ∈ status) :
    s.exit imp p none = .ok
      (s,
       p.map (fun q => { q with children := (dictUpsert s.name
           (some s.childrens_finish_info.1, some s.childrens_finish_info.2) q.children) }),
       if s.reporting_enabled then
         [{ toReportingEvent := ReportingEvent.init imp FINISH_EVENT_TYPE s.fullname
              s.childrens_finish_info.2,
            result := s.childrens_finish_info.1, post_files := s.post_files }]
       else []) := by
  have hmem := childrens_finish_info_mem_status s hres
  by_cases hen : s.reporting_enabled <;>
    simp [ReportEventStack.exit, ReportEventStack.finish_info,
      FinishReportingEvent.init, hmem, hen]

theorem exit_fail_child (imp : Nat) (s : ReportEventStack)
    (hfail : findChildWith "FAIL" s.children = true)
    (hen : s.reporting_enabled = true) :
    s.exit imp none none = .ok
      (s, none,
       [{ toReportingEvent :=
            ReportingEvent.init imp FINISH_EVENT_TYPE s.fullname s.message,
          result := "FAIL", post_files := s.post_files }]) := by
  simp [ReportEventStack.exit, ReportEventStack.finish_info,
    ReportEventStack.childrens_finish_info, hfail, hen,
    FinishReportingEvent.init, status]

/-- Claim C5: `report_event` calls `publish_event` exactly once on every
registered handler, synchronously and in registration order; when a handler
raises, the error propagates to the caller and the handlers registered after
it are not invoked for that event. -/
theorem report_event_each_handler_once_in_order {ε : Type} (ev : ε) :
    (∀ registry : List Handler, (∀ h ∈ registry, h.failsWith = none) →
       report_event registry ev = (registry.map (fun h => (h.hid, ev)), none)) ∧
    (∀ (pre post : List Handler) (f : Handler) (err : String),
       (∀ h ∈ pre, h.failsWith = none) → f.failsWith = some err →
       report_event (pre ++ f :: post) ev
         = (pre.map (fun h => (h.hid, ev)) ++ [(f.hid, ev)], some err)) :=
  ⟨fun registry hok => report_event_all_ok ev registry hok,
   fun pre post f err hok hf => report_event_first_failure ev pre f post err hok hf⟩

theorem report_event_each_handler_once_witness :
    report_event [(⟨1, none⟩ : Handler), ⟨2, none⟩] (0 : Nat)
      = ([(1, 0), (2, 0)], none) ∧
    report_event [(⟨1, none⟩ : Handler), ⟨2, some "boom"⟩, ⟨3, none⟩] (0 : Nat)
      = ([(1, 0), (2, 0)], some "boom") :=
  ⟨(report_event_each_handler_once_in_order (0 : Nat)).1
     [⟨1, none⟩, ⟨2, none⟩] (by decide),
   (report_event_each_handler_once_in_order (0 : Nat)).2
     [⟨1, none⟩] [⟨3, none⟩] ⟨2, some "boom"⟩ "boom" (by decide) rfl⟩

/-- Claim C6: `report_finish_event` (equivalently, the `FinishReportingEvent`
constructor) rejects a result outside `status` before any dispatch, so no
handler receives an event for that call; for a valid result the construction
succeeds and the event is delivered to every handler. -/
theorem finish_event_validated_before_dispatch (imp : Nat) (registry : List Handler)
    (n d r : String) (pf : Option (List String)) :
    (r ∉ status →
       report_finish_event imp registry n d r pf
         = .valError ("Invalid result: " ++ r)) ∧
    (r ∈ status → ∃ ev : FinishReportingEvent,
       FinishReportingEvent.init imp n d r pf = .ok ev ∧ ev.result = r ∧
       report_finish_event imp registry n d r pf
         = .dispatched (report_event registry ev).1 (report_event registry ev).2 ∧
       ((∀ h ∈ registry, h.failsWith = none) →
          (report_event registry ev).1 = registry.map fun h => (h.hid, ev))) := by
  constructor
  · intro hr
    simp [report_finish_event, FinishReportingEvent.init, hr]
  · intro hr
    have hinit : FinishReportingEvent.init imp n d r pf =
        .ok { toReportingEvent := ReportingEvent.init imp FINISH_EVENT_TYPE n d,
              result := r, post_files := pf.getD [] } := by
      simp [FinishReportingEvent.init, hr]
    refine ⟨_, hinit, rfl, ?_, ?_⟩
    · simp [report_finish_event, hinit]
    · intro hok
      simp [report_event_all_ok _ registry hok]

theorem finish_event_validated_witness :
    report_finish_event 0 [(⟨1, none⟩ : Handler)] "n" "d" "BOGUS" none
      = .valError ("Invalid result: " ++ "BOGUS") ∧
    (∃ ev : FinishReportingEvent,
       FinishReportingEvent.init 0 "n" "d" "WARN" none = .ok ev ∧ ev.result = "WARN" ∧
       report_finish_event 0 [(⟨1, none⟩ : Handler)] "n" "d" "WARN" none
         = .dispatched (report_event [(⟨1, none⟩ : Handler)] ev).1
             (report_event [(⟨1, none⟩ : Handler)] ev).2 ∧
       ((∀ h ∈ [(⟨1, none⟩ : Handler)], h.failsWith = none) →
          (report_event [(⟨1, none⟩ : Handler)] ev).1
            = [(⟨1, none⟩ : Handler)].map fun h => (h.hid, ev))) :=
  ⟨(finish_event_validated_before_dispatch 0 [⟨1, none⟩] "n" "d" "BOGUS" none).1
     (by decide),
   (finish_event_validated_before_dispatch 0 [⟨1, none⟩] "n" "d" "WARN" none).2
     (by decide)⟩

/-- Claim C2: a body exception that is not `SystemExit(0)` makes the scope
report `(result_on_exception, message)` and keeps propagating after the
finish event is emitted (never suppressed, since `__exit__` returns `None`);
a `SystemExit(0)` unwind reports exactly as a normal exit would, via the
children rollup instead of `result_on_exception`.  `s2` is the state of the
stack object when the body finishes. -/
theorem exception_reported_not_swallowed (imp : Nat) (s s2 : ReportEventStack)
    (p : Option ReportEventStack) (e : PyExc)
    (hroe : s2.result_on_exception ∈ status) (hres : s2._result ∈ status) :
    (isCleanExit e = false →
      ∃ w : WithResult,
        runWith imp s p (fun _ => s2) (some e) = .ok w ∧
        w.propagating = some e ∧
        w.finishEvents =
          (if s2.reporting_enabled then
            [{ toReportingEvent := ReportingEvent.init imp FINISH_EVENT_TYPE
                 s2.fullname s2.message,
               result := s2.result_on_exception, post_files := s2.post_files }]
           else [])) ∧
    (isCleanExit e = true →
      ∃ w w' : WithResult,
        runWith imp s p (fun _ => s2) (some e) = .ok w ∧
        runWith imp s p (fun _ => s2) none = .ok w' ∧
        w.finishEvents = w'.finishEvents ∧ w.parent = w'.parent ∧
        w.self = w'.self ∧ w.propagating = some e ∧
        (s2.reporting_enabled = true →
          ∃ fin, w.finishEvents = [fin] ∧
            (fin.result, fin.description) = s2.childrens_finish_info)) := by
  constructor
  · intro he
    have hx := exit_exc imp s2 ((s.enter imp p).2.1) e he hroe
    have hrw : runWith imp s p (fun _ => s2) (some e) = .ok
        { self := s2,
          parent := ((s.enter imp p).2.1).map (fun q =>
            { q with children := (dictUpsert s2.name
                (some s2.result_on_exception, some s2.message) q.children) }),
          startEvents := (s.enter imp p).2.2,
          finishEvents :=
            if s2.reporting_enabled then
              [{ toReportingEvent := ReportingEvent.init imp FINISH_EVENT_TYPE
                   s2.fullname s2.message,
                 result := s2.result_on_exception, post_files := s2.post_files }]
            else [],
          propagating := some e } := by
      simp [runWith, hx]
    exact ⟨_, hrw, rfl, rfl⟩
  · intro he
    have hx := exit_clean_eq_exit_none imp s2 ((s.enter imp p).2.1) e he
    have hr := exit_rollup imp s2 ((s.enter imp p).2.1) hres
    have hrw1 : runWith imp s p (fun _ => s2) (some e) = .ok
        { self := s2,
          parent := ((s.enter imp p).2.1).map (fun q =>
            { q with children := (dictUpsert s2.name
                (some s2.childrens_finish_info.1, some s2.childrens_finish_info.2)
                q.children) }),
          startEvents := (s.enter imp p).2.2,
          finishEvents :=
            if s2.reporting_enabled then
              [{ toReportingEvent := ReportingEvent.init imp FINISH_EVENT_TYPE
                   s2.fullname s2.childrens_finish_info.2,
                 result := s2.childrens_finish_info.1, post_files := s2.post_files }]
            else [],
          propagating := some e } := by
      simp [runWith, hx, hr]
    have hrw2 : runWith imp s p (fun _ => s2) none = .ok
        { self := s2,
          parent := ((s.enter imp p).2.1).map (fun q =>
            { q with children := (dictUpsert s2.name
                (some s2.childrens_finish_info.1, some s2.childrens_finish_info.2)
                q.children) }),
          startEvents := (s.enter imp p).2.2,
          finishEvents :=
            if s2.reporting_enabled then
              [{ toReportingEvent := ReportingEvent.init imp FINISH_EVENT_TYPE
                   s2.fullname s2.childrens_finish_info.2,
                 result := s2.childrens_finish_info.1, post_files := s2.post_files }]
            else [],
          propagating := none } := by
      simp [runWith, hr]
    refine ⟨_, _, hrw1, hrw2, rfl, rfl, rfl, rfl, ?_⟩
    intro hen
    refine ⟨{ toReportingEvent := ReportingEvent.init imp FINISH_EVENT_TYPE
                s2.fullname s2.childrens_finish_info.2,
              result := s2.childrens_finish_info.1,
              post_files := s2.post_files }, ?_, ?_⟩
    · simp [hen]
    · simp [ReportingEvent.init]

theorem exception_reported_not_swallowed_witness :
    ∃ w : WithResult,
      runWith 0 sampleStack none (fun _ => sampleStack)
        (some (PyExc.otherExc "RuntimeError")) = .ok w ∧
      w.propagating = some (PyExc.otherExc "RuntimeError") ∧
      w.finishEvents =
        (if sampleStack.reporting_enabled then
          [{ toReportingEvent := ReportingEvent.init 0 FINISH_EVENT_TYPE
               sampleStack.fullname sampleStack.message,
             result := sampleStack.result_on_exception,
             post_files := sampleStack.post_files }]
         else []) :=
  (exception_reported_not_swallowed 0 sampleStack sampleStack none
    (PyExc.otherExc "RuntimeError") (by decide) (by decide)).1 rfl

/-- Claim C9: `__enter__` only resets `result` to `SUCCESS` on the stack
itself (every other field, the `children` mapping included, is unchanged) and
writes the `(None, None)` placeholder into the parent's `children` when a
parent exists; since `children` is never cleared, outcomes recorded during a
previous use of the same instance still decide the next exit's rollup. -/
theorem enter_only_resets_result (imp : Nat) (s q : ReportEventStack) :
    (s.enter imp (some q)).1 = { s with _result := "SUCCESS" } ∧
    (s.enter imp (some q)).2.1 =
      some { q with children := dictUpsert s.name (none, none) q.children } ∧
    (s.enter imp none).2.1 = none ∧
    (findChildWith "FAIL" s.children = true →
      ((s.enter imp (some q)).1).finish_info none = ("FAIL", s.message)) := by
  refine ⟨rfl, rfl, rfl, ?_⟩
  intro hf
  simp [ReportEventStack.enter, ReportEventStack.finish_info,
    ReportEventStack.childrens_finish_info, hf, ReportEventStack.message]

theorem enter_only_resets_result_witness :
    ((failChildStack.enter 0 (some sampleStack)).1).finish_info none
      = ("FAIL", failChildStack.message) :=
  (enter_only_resets_result 0 failChildStack sampleStack).2.2.2 (by decide)

/-- Claim C10: a reporting-disabled stack emits no start event on entry and no
finish event on exit, yet still writes the placeholder into the parent's
`children` on entry and its `(result, message)` outcome there on exit; so a
disabled child whose body raises makes its enabled parent report `FAIL` in the
parent's own finish event. -/
theorem disabled_child_still_rolls_up (imp : Nat) (s q : ReportEventStack)
    (e : PyExc) (hdis : s.reporting_enabled = false)
    (hroe : s.result_on_exception = "FAIL") (he : isCleanExit e = false)
    (hqen : q.reporting_enabled = true) :
    (s.enter imp (some q)).2.2 = [] ∧
    (s.enter imp (some q)).2.1 =
      some { q with children := dictUpsert s.name (none, none) q.children } ∧
    ∃ (w : WithResult) (q1 : ReportEventStack) (fin : FinishReportingEvent),
      runWith imp s (some q) (fun x => x) (some e) = .ok w ∧
      w.startEvents = [] ∧ w.finishEvents = [] ∧
      w.parent = some q1 ∧
      q1.children = (dictUpsert s.name (some "FAIL", some s.message)
        (dictUpsert s.name (none, none) q.children)) ∧
      q1.exit imp none none = .ok (q1, none, [fin]) ∧
      fin.result = "FAIL" ∧ fin.description = q.message := by
  refine ⟨by simp [ReportEventStack.enter, hdis], rfl, ?_⟩
  have hexit1 : ({ s with _result := "SUCCESS" } : ReportEventStack).exit imp
      (some { q with children := dictUpsert s.name (none, none) q.children })
      (some e) = .ok
      ({ s with _result := "SUCCESS" },
       some { q with children := (dictUpsert s.name (some "FAIL", some s.message)
           (dictUpsert s.name (none, none) q.children)) },
       []) := by
    simp [ReportEventStack.exit, ReportEventStack.finish_info, he, hdis, hroe,
      ReportEventStack.message]
  have hfail : findChildWith "FAIL"
      (dictUpsert s.name (some "FAIL", some s.message)
        (dictUpsert s.name (none, none) q.children)) = true :=
    findChildWith_dictUpsert "FAIL" s.name (some s.message)
      (dictUpsert s.name (none, none) q.children)
  refine ⟨{ self := { s with _result := "SUCCESS" },
            parent := some { q with children := (dictUpsert s.name
              (some "FAIL", some s.message)
              (dictUpsert s.name (none, none) q.children)) },
            startEvents := if s.reporting_enabled then
                [ReportingEvent.init imp START_EVENT_TYPE s.fullname s.description]
              else [],
            finishEvents := [], propagating := some e },
          { q with children := (dictUpsert s.name (some "FAIL", some s.message)
              (dictUpsert s.name (none, none) q.children)) },
          { toReportingEvent := ReportingEvent.init imp FINISH_EVENT_TYPE
              q.fullname q.message,
            result := "FAIL", post_files := q.post_files },
          ?_, by simp [hdis], rfl, rfl, rfl, ?_, rfl, rfl⟩
  · simp [runWith, ReportEventStack.enter, hexit1]
  · exact exit_fail_child imp _ hfail hqen

theorem disabled_child_still_rolls_up_witness :
    ∃ (w : WithResult) (q1 : ReportEventStack) (fin : FinishReportingEvent),
      runWith 0 disabledChild (some sampleStack) (fun x => x)
        (some (PyExc.otherExc "OSError")) = .ok w ∧
      w.startEvents = [] ∧ w.finishEvents = [] ∧
      w.parent = some q1 ∧
      q1.children = (dictUpsert disabledChild.name
        (some "FAIL", some disabledChild.message)
        (dictUpsert disabledChild.name (none, none) sampleStack.children)) ∧
      q1.exit 0 none none = .ok (q1, none, [fin]) ∧
      fin.result = "FAIL" ∧ fin.description = sampleStack.message :=
  (disabled_child_still_rolls_up 0 disabledChild sampleStack
    (PyExc.otherExc "OSError") rfl rfl rfl rfl).2.2

end CurtinReporter
